import Mathlib

/-!
Verification model of the speech performance scoring and feedback engine
(`src/lib/audioProcessing.ts` and `src/lib/aiAnalysis.ts`, composed by the
`handleRecordingComplete` handler of `App.tsx`).

JavaScript numbers are modelled by `JsNum`: a finite value represented
exactly as a rational (abstracting from IEEE-754 rounding, which none of
the verified properties depend on) together with the special values NaN,
+Infinity and -Infinity that arise from the source code\x27s unguarded
divisions.  Strings are Lean strings; text is processed as lists of
characters, which for the ASCII texts involved coincides with the
JavaScript UTF-16 view.
-/

namespace Interview

/-- A JavaScript number: NaN, +Infinity, -Infinity, or a finite value
(modelled exactly as a rational). -/
inductive JsNum : Type where
  | nan : JsNum
  | posInf : JsNum
  | negInf : JsNum
  | fin : ℚ → JsNum
deriving DecidableEq

/-- JavaScript division of two finite numbers: division by zero yields NaN
(for `0 / 0`) or a signed infinity, as in IEEE-754; otherwise the exact
quotient. -/
def jsDiv (a b : ℚ) : JsNum :=
  if b ≠ 0 then .fin (a / b)
  else if a = 0 then .nan
  else if 0 < a then .posInf
  else .negInf

/-- JavaScript `x < c` for a finite constant `c`: false on NaN. -/
def JsNum.ltQ : JsNum → ℚ → Bool
  | .nan, _ => false
  | .posInf, _ => false
  | .negInf, _ => true
  | .fin a, c => a < c

/-- JavaScript `x > c` for a finite constant `c`: false on NaN. -/
def JsNum.gtQ : JsNum → ℚ → Bool
  | .nan, _ => false
  | .posInf, _ => true
  | .negInf, _ => false
  | .fin a, c => c < a

/-- JavaScript `x >= c` for a finite constant `c`: false on NaN. -/
def JsNum.geQ : JsNum → ℚ → Bool
  | .nan, _ => false
  | .posInf, _ => true
  | .negInf, _ => false
  | .fin a, c => c ≤ a

/-- JavaScript `x <= c` for a finite constant `c`: false on NaN. -/
def JsNum.leQ : JsNum → ℚ → Bool
  | .nan, _ => false
  | .posInf, _ => false
  | .negInf, _ => true
  | .fin a, c => a ≤ c

/-- JavaScript addition lifted to `JsNum`. -/
def JsNum.add : JsNum → JsNum → JsNum
  | .nan, _ => .nan
  | _, .nan => .nan
  | .posInf, .negInf => .nan
  | .negInf, .posInf => .nan
  | .posInf, _ => .posInf
  | _, .posInf => .posInf
  | .negInf, _ => .negInf
  | _, .negInf => .negInf
  | .fin a, .fin b => .fin (a + b)

/-- JavaScript subtraction lifted to `JsNum`. -/
def JsNum.sub : JsNum → JsNum → JsNum
  | .nan, _ => .nan
  | _, .nan => .nan
  | .posInf, .posInf => .nan
  | .negInf, .negInf => .nan
  | .posInf, _ => .posInf
  | .negInf, _ => .negInf
  | .fin _, .posInf => .negInf
  | .fin _, .negInf => .posInf
  | .fin a, .fin b => .fin (a - b)

/-- JavaScript multiplication by a finite constant. -/
def JsNum.mulQ : JsNum → ℚ → JsNum
  | .nan, _ => .nan
  | .posInf, c => if 0 < c then .posInf else if c < 0 then .negInf else .nan
  | .negInf, c => if 0 < c then .negInf else if c < 0 then .posInf else .nan
  | .fin a, c => .fin (a * c)

/-- JavaScript `Math.min(c, x)` for a finite constant `c`: NaN propagates. -/
def jsMin (c : ℚ) : JsNum → JsNum
  | .nan => .nan
  | .posInf => .fin c
  | .negInf => .negInf
  | .fin a => .fin (min c a)

/-- JavaScript `Math.max(c, x)` for a finite constant `c`: NaN propagates. -/
def jsMax (c : ℚ) : JsNum → JsNum
  | .nan => .nan
  | .posInf => .posInf
  | .negInf => .fin c
  | .fin a => .fin (max c a)

/-- JavaScript `Math.round`: round half toward positive infinity; NaN and
the infinities are returned unchanged. -/
def jsRound : JsNum → JsNum
  | .nan => .nan
  | .posInf => .posInf
  | .negInf => .negInf
  | .fin a => .fin ((⌊a + 1/2⌋ : ℤ) : ℚ)

/-- Rendering of a `JsNum` for string interpolation.  Finite values in the
pipeline are integers, rendered without a decimal point as in JavaScript;
the rendering of non-integral rationals is an approximation (never hit by
the pipeline). -/
def jsNumToString : JsNum → String
  | .nan => "NaN"
  | .posInf => "Infinity"
  | .negInf => "-Infinity"
  | .fin a => if a.den = 1 then toString a.num else toString a.num ++ "/" ++ toString a.den

/-! ### Text processing

The source matches regexes of the shape `\b(w1|w2|...)\b` against the
lowercased transcript text.  `\w` is `[A-Za-z0-9_]`; a `\b` between two
positions holds when exactly one side is a word character. -/

/-- JavaScript `\w`: ASCII letters, digits and underscore. -/
def isWordChar (c : Char) : Bool := c.isAlpha || c.isDigit || c = '_'

/-- Does `pat` match at the head of `cs`, with the trailing `\b` test of the
source regexes?  All patterns used by the source end in a word character,
so the trailing boundary holds exactly when the pattern is followed by a
non-word character or the end of the text. -/
def matchHere (pat cs : List Char) : Bool :=
  pat.isPrefixOf cs &&
    (match cs.drop pat.length with
     | [] => true
     | c :: _ => !isWordChar c)

/-- Count the non-overlapping occurrences of `\b pat \b` in `cs`, scanning
left to right as a global JavaScript regex does.  `atBoundary` records
whether the character before the current position was a non-word character
(or the position is the start of the text); all patterns used by the
source start and end in word characters, so after a match scanning resumes
with `atBoundary = false`. -/
def countOccAux (pat : List Char) : List Char → Bool → ℕ
  | [], _ => 0
  | c :: cs, atBoundary =>
    if atBoundary && matchHere pat (c :: cs) then
      countOccAux pat (cs.drop (pat.length - 1)) false + 1
    else
      countOccAux pat cs (!isWordChar c)
termination_by cs _ => cs.length
decreasing_by
  · simp only [List.length_drop, List.length_cons]
    omega
  · simp only [List.length_cons]
    omega

/-- Does `\b pat \b` match anywhere in `cs`?  (JavaScript `regex.test`.) -/
def testAux (pat : List Char) : List Char → Bool → Bool
  | [], _ => false
  | c :: cs, atBoundary =>
    (atBoundary && matchHere pat (c :: cs)) || testAux pat cs (!isWordChar c)

/-- Number of matches of the filler regex `new RegExp('\\b' + pat + '\\b', 'gi')`
against the (already lowercased) text. -/
def countOcc (pat : String) (text : List Char) : ℕ :=
  countOccAux pat.toList text true

/-- `new RegExp('\\b' + pat + '\\b').test(text)`. -/
def testPat (pat : String) (text : List Char) : Bool :=
  testAux pat.toList text true

/-- `/\b(p1|p2|...)\b/.test(text)`: all alternatives start and end in word
characters, so the alternation matches exactly when some alternative
matches with word boundaries. -/
def testAny (pats : List String) (text : List Char) : Bool :=
  pats.any (fun p => testPat p text)

/-- Split a character list at every character satisfying `p`.  Splitting at
each separator instead of at maximal separator runs only introduces extra
empty segments, and every use filters empty segments out, so this matches
the split-on-run regexes `/\s+/` and `/[.!?]+/` of the source. -/
def splitOnChar (p : Char → Bool) : List Char → List (List Char)
  | [] => [[]]
  | c :: cs =>
    if p c then [] :: splitOnChar p cs
    else
      match splitOnChar p cs with
      | [] => [[c]]
      | s :: ss => (c :: s) :: ss

/-- JavaScript `String.prototype.trim` on a character list (ASCII whitespace). -/
def trimChars (cs : List Char) : List Char :=
  ((cs.dropWhile Char.isWhitespace).reverse.dropWhile Char.isWhitespace).reverse

/-- `text.split(/\s+/).filter(w => w.length > 0)`: the whitespace-separated
tokens of the text. -/
def splitWords (text : List Char) : List (List Char) :=
  (splitOnChar Char.isWhitespace text).filter (fun w => 0 < w.length)

/-- `text.split(/[.!?]+/).filter(s => s.trim().length > 0).length`: the
number of non-blank sentence segments. -/
def sentenceCountOf (text : List Char) : ℕ :=
  ((splitOnChar (fun c => c = '.' || c = '!' || c = '?') text).filter
    (fun s => 0 < (trimChars s).length)).length

/-! ### Data model (`audioProcessing.ts`) -/

/-- One entry of `TranscriptionResult.words`.  The source field `end` is a
Lean keyword and is called `endTime` here. -/
structure WordTiming : Type where
  word : String
  start : ℚ
  endTime : ℚ
  confidence : ℚ
deriving DecidableEq

/-- `TranscriptionResult`. -/
structure TranscriptionResult : Type where
  text : String
  words : List WordTiming
  duration : ℚ
deriving DecidableEq

/-- `SpeechMetrics`.  `wordsPerMinute` and `vocabularyRichness` are produced
by unguarded divisions in the source and can be NaN or Infinity, so they
are `JsNum`; the remaining numeric fields are always finite. -/
structure SpeechMetrics : Type where
  wordsPerMinute : JsNum
  fillerWords : List String
  fillerWordCount : ℕ
  pauseDurations : List ℚ
  averagePauseDuration : ℚ
  sentenceCount : ℕ
  wordCount : ℕ
  uniqueWordCount : ℕ
  vocabularyRichness : JsNum
deriving DecidableEq

/-- `FILLER_WORDS`. -/
def FILLER_WORDS : List String :=
  ["um", "uh", "like", "you know", "sort of", "kind of", "i mean",
   "basically", "actually", "literally", "just", "so", "well", "right",
   "okay", "alright", "anyway", "hmm", "er", "ah"]

/-- The filler tokens found in the lowercased text: for each vocabulary
entry in order, the list of its regex matches (each matched substring is
the entry itself, since the text is lowercased and the pattern literal). -/
def fillerMatches (text : List Char) : List String :=
  (FILLER_WORDS.map (fun f => List.replicate (countOcc f text) f)).flatten

/-- The pause loop of `analyzeSpeechMetrics`: for `i` from 1, the gap
`words[i].start - words[i-1].end`, kept when greater than 0.1 s. -/
def pauseDurationsOf (ws : List WordTiming) : List ℚ :=
  ((ws.zip ws.tail).map (fun p => p.2.start - p.1.endTime)).filter
    (fun pause => 1/10 < pause)

/-- `analyzeSpeechMetrics` (`audioProcessing.ts`, lines 107-157). -/
def analyzeSpeechMetrics (transcription : TranscriptionResult) : SpeechMetrics :=
  let text := transcription.text.toList.map Char.toLower
  let words := splitWords text
  let wordCount := words.length
  let uniqueWords := (words.filter (fun w => 2 < w.length)).dedup
  let durationMinutes := transcription.duration / 60
  let wordsPerMinute := jsRound (jsDiv (wordCount : ℚ) durationMinutes)
  let fillerWordsFound := fillerMatches text
  let pauseDurations := pauseDurationsOf transcription.words
  let averagePauseDuration :=
    if 0 < pauseDurations.length then pauseDurations.sum / (pauseDurations.length : ℚ)
    else 0
  let sentenceCount := sentenceCountOf text
  let vocabularyRichness := jsDiv (uniqueWords.length : ℚ) (wordCount : ℚ)
  { wordsPerMinute := wordsPerMinute
    fillerWords := fillerWordsFound
    fillerWordCount := fillerWordsFound.length
    pauseDurations := pauseDurations
    averagePauseDuration := averagePauseDuration
    sentenceCount := sentenceCount
    wordCount := wordCount
    uniqueWordCount := uniqueWords.length
    vocabularyRichness := vocabularyRichness }

/-! ### Sub-score calculators (`audioProcessing.ts`, lines 192-272) -/

/-- `calculateClarityScore`. -/
def calculateClarityScore (metrics : SpeechMetrics) (transcription : TranscriptionResult) : JsNum :=
  let score0 : JsNum := .fin 100
  let fillerFrac := jsDiv (metrics.fillerWordCount : ℚ) (metrics.wordCount : ℚ)
  let score1 :=
    if fillerFrac.gtQ (33/1000) then
      score0.sub (jsMin 30 ((fillerFrac.sub (.fin (33/1000))).mulQ 500))
    else score0
  let avgConfidence :=
    jsDiv ((transcription.words.map (fun w => w.confidence)).sum)
      (transcription.words.length : ℚ)
  let score2 :=
    if avgConfidence.ltQ (9/10) then
      score1.sub (((JsNum.fin (9/10)).sub avgConfidence).mulQ 100)
    else score1
  let longPauses := (metrics.pauseDurations.filter (fun p => 2 < p)).length
  let score3 := score2.sub (jsMin 15 (.fin ((longPauses : ℚ) * 5)))
  jsMax 0 (jsRound score3)

/-- `calculateStructureScore`. -/
def calculateStructureScore (metrics : SpeechMetrics) : JsNum :=
  let score0 : ℚ := 100
  let avgWordsPerSentence := jsDiv (metrics.wordCount : ℚ) (metrics.sentenceCount : ℚ)
  let score1 :=
    if avgWordsPerSentence.ltQ 10 then score0 - 15
    else if avgWordsPerSentence.gtQ 30 then score0 - 20
    else score0
  let score2 :=
    if metrics.vocabularyRichness.ltQ (4/10) then score1 - 15
    else if metrics.vocabularyRichness.gtQ (7/10) then score1 + 10
    else score1
  let score3 := if metrics.sentenceCount < 3 then score2 - 20 else score2
  jsMax 0 (jsRound (.fin score3))

/-- `calculatePaceScore`. -/
def calculatePaceScore (metrics : SpeechMetrics) : JsNum :=
  let score0 : ℚ := 100
  let wpm := metrics.wordsPerMinute
  let score1 :=
    if wpm.ltQ 100 then score0 - 25
    else if wpm.ltQ 120 then score0 - 10
    else if wpm.gtQ 200 then score0 - 30
    else if wpm.gtQ 180 then score0 - 15
    else score0
  let score2 :=
    if 3/2 < metrics.averagePauseDuration then score1 - 15
    else if metrics.averagePauseDuration < 1/5 then score1 - 10
    else score1
  jsMax 0 (jsRound (.fin score2))

/-! ### Content analysis (`aiAnalysis.ts`) -/

/-- `/\b(example|instance|time when|situation|experience)\b/`. -/
def EXAMPLE_PATTERNS : List String :=
  ["example", "instance", "time when", "situation", "experience"]

/-- `/\b(first|second|then|next|finally|result|outcome|achieved)\b/`. -/
def STRUCTURE_PATTERNS : List String :=
  ["first", "second", "then", "next", "finally", "result", "outcome", "achieved"]

/-- `/\b(I will|I can|I have|I am confident|successfully|achieved|delivered)\b/`.
The regex has no `i` flag and is tested against the lowercased text, so the
capitalised alternatives can never match; they are kept verbatim. -/
def CONFIDENCE_PATTERNS : List String :=
  ["I will", "I can", "I have", "I am confident", "successfully", "achieved", "delivered"]

/-- `/\b(maybe|might|possibly|I think|I guess|probably|kind of|sort of)\b/`,
likewise case-sensitive against lowercased text. -/
def HEDGING_PATTERNS : List String :=
  ["maybe", "might", "possibly", "I think", "I guess", "probably", "kind of", "sort of"]

/-- The unit alternatives of the quantified-results regex. -/
def NUMBER_UNITS : List String :=
  ["percent", "%", "people", "users", "customers", "dollars", "weeks", "months", "years"]

/-- Match one alternative of the unit group followed by the closing `\b` of
`/\b\d+\s*(percent|%|...)\b/`.  For the trailing boundary exactly one of
the unit\x27s last character and the following character must be a word
character; the end of the text counts as a non-word side. -/
def unitMatchHere (u : List Char) (cs : List Char) : Bool :=
  u.isPrefixOf cs &&
    (let lastIsWord := isWordChar (u.getLast?.getD ' ')
     match cs.drop u.length with
     | [] => lastIsWord
     | c :: _ => lastIsWord != isWordChar c)

/-- Match `\d+\s*(unit)\b` at the head of `cs`; the leading `\b` is checked
by the caller.  Greedy consumption of digits and whitespace is faithful
here: no unit starts with a digit or a whitespace character, so regex
backtracking can never succeed where the greedy parse fails. -/
def matchNumHere (cs : List Char) : Bool :=
  let digits := cs.takeWhile Char.isDigit
  0 < digits.length &&
    (let rest := (cs.drop digits.length).dropWhile Char.isWhitespace
     NUMBER_UNITS.any (fun u => unitMatchHere u.toList rest))

/-- Scan for the quantified-results regex. -/
def testNumAux : List Char → Bool → Bool
  | [], _ => false
  | c :: cs, atBoundary =>
    (atBoundary && matchNumHere (c :: cs)) || testNumAux cs (!isWordChar c)

/-- `/\b\d+\s*(percent|%|people|users|customers|dollars|weeks|months|years)\b/.test(text)`. -/
def testNumberUnit (text : List Char) : Bool :=
  testNumAux text true

/-- `generateFeedbackText` (`aiAnalysis.ts`, lines 378-425).  The `question`
and `transcription` parameters are unused in the source as well. -/
def generateFeedbackText (_question : String) (_transcription : TranscriptionResult)
    (metrics : SpeechMetrics) : String :=
  let part0 := "Thank you for your response to this interview question. Here\x27s a detailed analysis of your performance:\n"
  let part1 :=
    if metrics.wordsPerMinute.ltQ 120 then
      "\nYour speaking pace was " ++ jsNumToString metrics.wordsPerMinute ++
        " words per minute, which is slower than ideal. Try to speak a bit faster while maintaining clarity. Practice will help you find a comfortable, confident pace."
    else if metrics.wordsPerMinute.gtQ 180 then
      "\nYour speaking pace was " ++ jsNumToString metrics.wordsPerMinute ++
        " words per minute, which is quite fast. Slow down to ensure the interviewer can follow your points easily. Remember to breathe and pause between ideas."
    else
      "\nYour speaking pace of " ++ jsNumToString metrics.wordsPerMinute ++
        " words per minute was well-balanced, making it easy for the interviewer to follow your response."
  let part2 :=
    if 5 < metrics.fillerWordCount then
      "\nYou used " ++ toString metrics.fillerWordCount ++
        " filler words (such as \"um,\" \"uh,\" \"like,\" \"you know\"). While some filler words are natural, reducing them will make you sound more confident and articulate. Try pausing instead of using fillers."
    else if 0 < metrics.fillerWordCount then
      "\nYou used " ++ toString metrics.fillerWordCount ++
        " filler words, which is quite good. With a bit more practice, you can eliminate these entirely."
    else
      "\nExcellent! You avoided filler words entirely, which demonstrates strong communication skills and confidence."
  let avgWordsPerSentence :=
    jsRound (jsDiv (metrics.wordCount : ℚ) (metrics.sentenceCount : ℚ))
  let part3 :=
    if avgWordsPerSentence.gtQ 25 then
      "\nYour sentences averaged " ++ jsNumToString avgWordsPerSentence ++
        " words, which is quite long. Breaking down complex ideas into shorter sentences will improve clarity and make your response easier to follow."
    else if avgWordsPerSentence.ltQ 12 then
      "\nYour sentences were quite short, averaging " ++ jsNumToString avgWordsPerSentence ++
        " words. While clarity is important, connecting related ideas into more complete sentences will make your response flow better."
    else ""
  let part4 :=
    if metrics.vocabularyRichness.gtQ (6/10) then
      "\nYou demonstrated strong vocabulary diversity, using " ++ toString metrics.uniqueWordCount ++
        " unique words. This shows good communication skills and helps keep the interviewer engaged."
    else if metrics.vocabularyRichness.ltQ (4/10) then
      "\nConsider expanding your vocabulary to avoid repetitive language. This will make your responses more engaging and professional."
    else ""
  let part5 := "\nOverall, continue practicing with various interview questions. Record yourself, review your responses, and focus on the areas highlighted above. Each practice session will build your confidence and improve your interview skills."
  part0 ++ part1 ++ part2 ++ part3 ++ part4 ++ part5

/-- Result record of `analyzeResponseContent`. -/
structure ContentAnalysis : Type where
  contentScore : ℚ
  strengths : List String
  improvements : List String
  feedbackText : String
deriving DecidableEq

/-- `analyzeResponseContent` (`aiAnalysis.ts`, lines 289-373).  The
sequential `push` calls of the source are rendered as ordered list
concatenation; the vocabulary improvement is pushed during the score
computation and therefore comes last. -/
def analyzeResponseContent (question : String) (transcription : TranscriptionResult)
    (metrics : SpeechMetrics) : ContentAnalysis :=
  let text := transcription.text.toList.map Char.toLower
  let isAppropriateLength := 50 ≤ metrics.wordCount ∧ metrics.wordCount ≤ 300
  let hasExamples := testAny EXAMPLE_PATTERNS text
  let hasStructure := testAny STRUCTURE_PATTERNS text
  let hasConfidence := testAny CONFIDENCE_PATTERNS text
  let hasHedging := testAny HEDGING_PATTERNS text
  let hasNumbers := testNumberUnit text
  let strengths :=
    (if isAppropriateLength then ["Provided a well-balanced response length"] else []) ++
    (if hasExamples then ["Included concrete examples to support your points"] else []) ++
    (if hasStructure then ["Used a structured approach to organize your response"] else []) ++
    (if hasConfidence && !hasHedging then ["Demonstrated confidence in your abilities"] else []) ++
    (if hasNumbers then ["Provided quantifiable results and metrics"] else [])
  let improvements :=
    (if isAppropriateLength then []
     else if metrics.wordCount < 50 then ["Expand your answers with more details and examples"]
     else ["Try to be more concise and focus on key points"]) ++
    (if hasExamples then [] else ["Add specific examples from your experience"]) ++
    (if hasStructure then []
     else ["Use frameworks like STAR (Situation, Task, Action, Result) for better structure"]) ++
    (if hasConfidence && !hasHedging then []
     else if hasHedging then ["Use more confident language and reduce hedging words"]
     else []) ++
    (if hasNumbers then [] else ["Include specific numbers and measurable outcomes when possible"]) ++
    (if metrics.vocabularyRichness.ltQ (4/10) then ["Expand your vocabulary to avoid repetitive language"] else [])
  let contentScore : ℚ := 70
  let contentScore := if isAppropriateLength then contentScore + 10 else contentScore
  let contentScore := if hasExamples then contentScore + 10 else contentScore
  let contentScore := if hasStructure then contentScore + 10 else contentScore
  let contentScore := if hasConfidence && !hasHedging then contentScore + 5 else contentScore
  let contentScore := if hasNumbers then contentScore + 5 else contentScore
  let contentScore := if metrics.vocabularyRichness.ltQ (4/10) then contentScore - 10 else contentScore
  let contentScore := min 100 (max 0 contentScore)
  { contentScore := contentScore
    strengths := strengths
    improvements := improvements
    feedbackText := generateFeedbackText question transcription metrics }

/-- Result record of `generateDetailedFeedback`. -/
structure DetailedFeedback : Type where
  additionalStrengths : List String
  additionalImprovements : List String
deriving DecidableEq

/-- `generateDetailedFeedback` (`aiAnalysis.ts`, lines 430-475). -/
def generateDetailedFeedback (metrics : SpeechMetrics) : DetailedFeedback :=
  let additionalStrengths :=
    (if metrics.wordsPerMinute.geQ 130 && metrics.wordsPerMinute.leQ 170 then
      ["Maintained an ideal speaking pace throughout your response"] else []) ++
    (if metrics.fillerWordCount ≤ 3 then ["Spoke clearly with minimal filler words"] else []) ++
    (if metrics.vocabularyRichness.gtQ (6/10) then
      ["Demonstrated strong vocabulary and varied word choice"] else []) ++
    (if 3/10 < metrics.averagePauseDuration ∧ metrics.averagePauseDuration < 1 then
      ["Used pauses effectively for emphasis and clarity"] else [])
  let additionalImprovements :=
    (if 8 < metrics.fillerWordCount then
      ["Significantly reduce filler words like \"um,\" \"uh,\" and \"like\""] else []) ++
    (if 3/2 < metrics.averagePauseDuration then
      ["Reduce long pauses to maintain engagement and flow"] else []) ++
    (if metrics.wordsPerMinute.ltQ 110 then
      ["Increase your speaking pace to sound more confident"] else []) ++
    (if metrics.sentenceCount < 3 then
      ["Develop your answers with multiple well-structured sentences"] else [])
  { additionalStrengths := additionalStrengths
    additionalImprovements := additionalImprovements }

/-! ### Feedback synthesis -/

/-- `AnalysisInput`. -/
structure AnalysisInput : Type where
  question : String
  transcription : TranscriptionResult
  metrics : SpeechMetrics
  clarityScore : JsNum
  structureScore : JsNum
  paceScore : JsNum
deriving DecidableEq

/-- `AIFeedback` (`supabase.ts`). -/
structure AIFeedback : Type where
  id : String
  session_id : String
  overall_score : JsNum
  clarity_score : JsNum
  structure_score : JsNum
  pace_score : JsNum
  filler_word_count : ℕ
  feedback_text : String
  strengths : List String
  improvements : List String
  created_at : String
deriving DecidableEq

/-- `generateAIFeedback` (`aiAnalysis.ts`, lines 480-538).  The source
draws `id` from `crypto.randomUUID()` and `created_at` from
`new Date().toISOString()`; these effects are modelled by the explicit
parameters `freshId` and `now` supplied by the runtime. -/
def generateAIFeedback (input : AnalysisInput) (sessionId : String)
    (freshId now : String) : AIFeedback :=
  let contentAnalysis := analyzeResponseContent input.question input.transcription input.metrics
  let detailedFeedback := generateDetailedFeedback input.metrics
  let allStrengths := contentAnalysis.strengths ++ detailedFeedback.additionalStrengths
  let allImprovements := contentAnalysis.improvements ++ detailedFeedback.additionalImprovements
  let allStrengths :=
    if allStrengths.length = 0 then
      ["Completed the interview question",
       "Provided a response within a reasonable timeframe"]
    else allStrengths
  let allImprovements :=
    if allImprovements.length = 0 then
      ["Continue practicing to refine your delivery",
       "Consider recording yourself to identify areas for improvement"]
    else allImprovements
  let topStrengths := allStrengths.take 4
  let topImprovements := allImprovements.take 4
  let overallScore :=
    jsRound ((((input.clarityScore.mulQ (3/10)).add
      (input.structureScore.mulQ (1/4))).add
      (input.paceScore.mulQ (1/4))).add
      ((JsNum.fin contentAnalysis.contentScore).mulQ (1/5)))
  { id := freshId
    session_id := sessionId
    overall_score := overallScore
    clarity_score := input.clarityScore
    structure_score := input.structureScore
    pace_score := input.paceScore
    filler_word_count := input.metrics.fillerWordCount
    feedback_text := contentAnalysis.feedbackText
    strengths := topStrengths
    improvements := topImprovements
    created_at := now }

/-- The scoring pipeline as composed by `handleRecordingComplete`
(`App.tsx`, steps 2-4): metrics extraction, the three sub-score
calculators, then feedback synthesis. -/
def runPipeline (question : String) (transcription : TranscriptionResult)
    (sessionId freshId now : String) : AIFeedback :=
  let metrics := analyzeSpeechMetrics transcription
  let clarityScore := calculateClarityScore metrics transcription
  let structureScore := calculateStructureScore metrics
  let paceScore := calculatePaceScore metrics
  generateAIFeedback
    { question := question
      transcription := transcription
      metrics := metrics
      clarityScore := clarityScore
      structureScore := structureScore
      paceScore := paceScore }
    sessionId freshId now

/-! ### Concrete inputs used by the individual claims -/

/-- A valid input (non-empty text, positive duration): three sentences of
ten words each, thirty pairwise distinct tokens all longer than two
characters, so the average sentence length is 10, the vocabulary richness
is 1 and the sentence count is 3. -/
def c1Transcription : TranscriptionResult :=
  { text := "alpha bravo charlie delta echo foxtrot golf hotel india juliet. kilo lima mike november oscar papa quebec romeo sierra tango. uniform victor whiskey xray yankee zulu crimson indigo violet magenta."
    words := []
    duration := 12 }

/-- A transcript with words but zero duration. -/
def c3TranscriptionA : TranscriptionResult :=
  { text := "hello world", words := [], duration := 0 }

/-- A fully degenerate transcript: empty text, no words, zero duration. -/
def c3TranscriptionB : TranscriptionResult :=
  { text := "", words := [], duration := 0 }

/-- A small fixed transcript used by the determinism counterexample. -/
def c4Transcription : TranscriptionResult :=
  { text := "hi there", words := [], duration := 5 }

/-- An input whose only detected signals are negative: four filler words
(so no minimal-filler strength), hedging language, fewer than 50 words,
no examples, structure markers, confidence words or numbers, vocabulary
richness 2/7, pace 42 words per minute. -/
def c5Transcription : TranscriptionResult :=
  { text := "um um um um i think maybe", words := [], duration := 10 }

/-! ### The claims -/

/-- **C1.** The claim states that each sub-score of the pipeline lies in
[0,100] for every valid input.  The code violates it: on this valid input
(non-empty text, positive duration) the structure sub-score is 110,
because `calculateStructureScore` adds 10 for vocabulary richness above
0.7 to the baseline 100 and clamps only from below
(`Math.max(0, Math.round(score))`, `audioProcessing.ts` line 242), unlike
the content score which is clamped to 100.  The repository\x27s own
documentation declares `calculateStructureScore(metrics) -> number (0-100)`. -/
theorem c1_structure_score_exceeds_100 :
    (runPipeline "Tell me about your strengths" c1Transcription "sid" "fid" "now").structure_score
      = JsNum.fin 110 ∧
    c1Transcription.text ≠ "" ∧ 0 < c1Transcription.duration := by
  refine ⟨by with_unfolding_all decide, by with_unfolding_all decide, by with_unfolding_all decide⟩

/-- **C3.** The claim states that the extractor guards every division, so
that zero duration yields `wordsPerMinute = 0` and zero word count yields
`vocabularyRichness = 0`.  The code has no such guards
(`audioProcessing.ts` lines 114-115 and 144): with duration 0 and a
non-empty text the speaking rate is +Infinity, and with an empty text both
the speaking rate and the vocabulary richness are NaN (0/0). -/
theorem c3_unguarded_divisions :
    (analyzeSpeechMetrics c3TranscriptionA).wordsPerMinute = JsNum.posInf ∧
    (analyzeSpeechMetrics c3TranscriptionB).wordsPerMinute = JsNum.nan ∧
    (analyzeSpeechMetrics c3TranscriptionB).vocabularyRichness = JsNum.nan := by
  refine ⟨by with_unfolding_all decide, by with_unfolding_all decide, by with_unfolding_all decide⟩

/-- **C4, counterexample.** The claim states that two runs of the pipeline
on identical input produce byte-identical feedback records with no hidden
randomness in any field.  It is false: the `id` field is drawn from
`crypto.randomUUID()` (`aiAnalysis.ts` line 526), so two runs on the same
question, transcript and duration that draw different UUIDs produce
different records. -/
theorem c4_record_depends_on_random_uuid :
    runPipeline "q" c4Transcription "s" "uuid-a" "t" ≠
      runPipeline "q" c4Transcription "s" "uuid-b" "t" := by
  intro h
  have h2 : "uuid-a" = "uuid-b" := congrArg AIFeedback.id h
  exact absurd h2 (by decide)

/-- **C4, amended.** Every field of the feedback record other than `id`
(random UUID) and `created_at` (current clock time) is a deterministic
function of the input: two runs on the same question, transcript and
session agree on all nine remaining fields. -/
theorem c4_deterministic_except_id_and_timestamp (question : String)
    (transcription : TranscriptionResult) (sessionId id1 now1 id2 now2 : String) :
    (runPipeline question transcription sessionId id1 now1).overall_score =
      (runPipeline question transcription sessionId id2 now2).overall_score ∧
    (runPipeline question transcription sessionId id1 now1).clarity_score =
      (runPipeline question transcription sessionId id2 now2).clarity_score ∧
    (runPipeline question transcription sessionId id1 now1).structure_score =
      (runPipeline question transcription sessionId id2 now2).structure_score ∧
    (runPipeline question transcription sessionId id1 now1).pace_score =
      (runPipeline question transcription sessionId id2 now2).pace_score ∧
    (runPipeline question transcription sessionId id1 now1).filler_word_count =
      (runPipeline question transcription sessionId id2 now2).filler_word_count ∧
    (runPipeline question transcription sessionId id1 now1).feedback_text =
      (runPipeline question transcription sessionId id2 now2).feedback_text ∧
    (runPipeline question transcription sessionId id1 now1).strengths =
      (runPipeline question transcription sessionId id2 now2).strengths ∧
    (runPipeline question transcription sessionId id1 now1).improvements =
      (runPipeline question transcription sessionId id2 now2).improvements ∧
    (runPipeline question transcription sessionId id1 now1).session_id =
      (runPipeline question transcription sessionId id2 now2).session_id :=
  ⟨rfl, rfl, rfl, rfl, rfl, rfl, rfl, rfl, rfl⟩

/-- **C5, counterexample.** The claim states that the strengths list has
between 3 and 4 entries whenever at least one signal is detected.  It is
false: on this input hedging language is detected (among other signals),
every strength source fails, and `generateAIFeedback` pads an empty
strengths list with exactly two fixed entries (`aiAnalysis.ts` lines
503-506), so the returned list has length 2. -/
theorem c5_strengths_list_of_length_two :
    (runPipeline "q" c5Transcription "s" "f" "n").strengths.length = 2 ∧
    testAny HEDGING_PATTERNS (c5Transcription.text.toList.map Char.toLower) = true := by
  refine ⟨by with_unfolding_all decide, by with_unfolding_all decide⟩

/-- **C2.** For any quadruple of finite sub-scores fed into the synthesizer
the `overall_score` field equals the round of the fixed weighted sum
`clarity*0.30 + structure*0.25 + pace*0.25 + content*0.20`, where `round`
is round-half-up as in `Math.round`. -/
theorem c2_overall_score_is_weighted_round (input : AnalysisInput)
    (sessionId freshId now : String) (c s p : ℚ)
    (hc : input.clarityScore = .fin c) (hs : input.structureScore = .fin s)
    (hp : input.paceScore = .fin p) :
    (generateAIFeedback input sessionId freshId now).overall_score =
      .fin ((⌊c * (30/100) + s * (25/100) + p * (25/100) +
        (analyzeResponseContent input.question input.transcription input.metrics).contentScore
          * (20/100) + 1/2⌋ : ℤ) : ℚ) := by
  simp only [generateAIFeedback, hc, hs, hp, JsNum.mulQ, JsNum.add, jsRound, JsNum.fin.injEq]
  norm_num

/-- A concrete input for the C2 witness: fixed finite sub-scores. -/
def c2Input : AnalysisInput :=
  { question := "Tell me about a challenge"
    transcription := { text := "I solved it successfully.", words := [], duration := 30 }
    metrics := analyzeSpeechMetrics { text := "I solved it successfully.", words := [], duration := 30 }
    clarityScore := .fin 80
    structureScore := .fin 75
    paceScore := .fin 90 }

/-- Witness for C2 at a concrete input. -/
theorem c2_overall_score_is_weighted_round_witness :
    (generateAIFeedback c2Input "s" "f" "n").overall_score =
      .fin ((⌊(80 : ℚ) * (30/100) + 75 * (25/100) + 90 * (25/100) +
        (analyzeResponseContent c2Input.question c2Input.transcription c2Input.metrics).contentScore
          * (20/100) + 1/2⌋ : ℤ) : ℚ) :=
  c2_overall_score_is_weighted_round c2Input "s" "f" "n" 80 75 90 rfl rfl rfl

/-- If a list is replaced by two fixed entries when empty and then truncated
to its first four entries, the result has between 1 and 4 entries. -/
theorem padTake_length_bounds (l : List String) (d1 d2 : String) :
    1 ≤ ((if l.length = 0 then [d1, d2] else l).take 4).length ∧
      ((if l.length = 0 then [d1, d2] else l).take 4).length ≤ 4 := by
  rcases l with _ | ⟨a, l⟩
  · simp
  · rw [if_neg (by simp)]
    simp only [List.length_take, List.length_cons]
    omega

/-- **C10.** For every input the strengths and improvements lists of the
returned record are non-empty and contain at most 4 entries: an empty
candidate list is replaced by fixed default entries and both lists are
truncated to their first 4 entries (`aiAnalysis.ts` lines 502-515). -/
theorem c10_lists_nonempty_and_at_most_four (input : AnalysisInput)
    (sessionId freshId now : String) :
    (generateAIFeedback input sessionId freshId now).strengths ≠ [] ∧
    (generateAIFeedback input sessionId freshId now).strengths.length ≤ 4 ∧
    (generateAIFeedback input sessionId freshId now).improvements ≠ [] ∧
    (generateAIFeedback input sessionId freshId now).improvements.length ≤ 4 := by
  have hs := padTake_length_bounds
    ((analyzeResponseContent input.question input.transcription input.metrics).strengths ++
      (generateDetailedFeedback input.metrics).additionalStrengths)
    "Completed the interview question" "Provided a response within a reasonable timeframe"
  have hi := padTake_length_bounds
    ((analyzeResponseContent input.question input.transcription input.metrics).improvements ++
      (generateDetailedFeedback input.metrics).additionalImprovements)
    "Continue practicing to refine your delivery"
    "Consider recording yourself to identify areas for improvement"
  have hseq : (generateAIFeedback input sessionId freshId now).strengths =
      (if ((analyzeResponseContent input.question input.transcription input.metrics).strengths ++
          (generateDetailedFeedback input.metrics).additionalStrengths).length = 0 then
        ["Completed the interview question", "Provided a response within a reasonable timeframe"]
      else
        (analyzeResponseContent input.question input.transcription input.metrics).strengths ++
          (generateDetailedFeedback input.metrics).additionalStrengths).take 4 := rfl
  have hieq : (generateAIFeedback input sessionId freshId now).improvements =
      (if ((analyzeResponseContent input.question input.transcription input.metrics).improvements ++
          (generateDetailedFeedback input.metrics).additionalImprovements).length = 0 then
        ["Continue practicing to refine your delivery",
         "Consider recording yourself to identify areas for improvement"]
      else
        (analyzeResponseContent input.question input.transcription input.metrics).improvements ++
          (generateDetailedFeedback input.metrics).additionalImprovements).take 4 := rfl
  refine ⟨?_, ?_, ?_, ?_⟩
  · apply List.length_pos.mp
    rw [hseq]
    exact hs.1
  · rw [hseq]
    exact hs.2
  · apply List.length_pos.mp
    rw [hieq]
    exact hi.1
  · rw [hieq]
    exact hi.2

/-- **C5, amended.** The strengths and improvements lists each have between
1 and 4 entries (not 3 and 4): the concatenated candidate lists are not
deduplicated, a candidate list that is empty is replaced by exactly two
fixed fallback entries (not padded to three), and both lists are truncated
to their first four entries. -/
theorem c5_amended_list_bounds_and_padding (input : AnalysisInput)
    (sessionId freshId now : String) :
    (1 ≤ (generateAIFeedback input sessionId freshId now).strengths.length ∧
      (generateAIFeedback input sessionId freshId now).strengths.length ≤ 4) ∧
    (1 ≤ (generateAIFeedback input sessionId freshId now).improvements.length ∧
      (generateAIFeedback input sessionId freshId now).improvements.length ≤ 4) ∧
    ((analyzeResponseContent input.question input.transcription input.metrics).strengths ++
        (generateDetailedFeedback input.metrics).additionalStrengths = [] →
      (generateAIFeedback input sessionId freshId now).strengths =
        ["Completed the interview question",
         "Provided a response within a reasonable timeframe"]) := by
  have hs := padTake_length_bounds
    ((analyzeResponseContent input.question input.transcription input.metrics).strengths ++
      (generateDetailedFeedback input.metrics).additionalStrengths)
    "Completed the interview question" "Provided a response within a reasonable timeframe"
  have hi := padTake_length_bounds
    ((analyzeResponseContent input.question input.transcription input.metrics).improvements ++
      (generateDetailedFeedback input.metrics).additionalImprovements)
    "Continue practicing to refine your delivery"
    "Consider recording yourself to identify areas for improvement"
  have hseq : (generateAIFeedback input sessionId freshId now).strengths =
      (if ((analyzeResponseContent input.question input.transcription input.metrics).strengths ++
          (generateDetailedFeedback input.metrics).additionalStrengths).length = 0 then
        ["Completed the interview question", "Provided a response within a reasonable timeframe"]
      else
        (analyzeResponseContent input.question input.transcription input.metrics).strengths ++
          (generateDetailedFeedback input.metrics).additionalStrengths).take 4 := rfl
  have hieq : (generateAIFeedback input sessionId freshId now).improvements =
      (if ((analyzeResponseContent input.question input.transcription input.metrics).improvements ++
          (generateDetailedFeedback input.metrics).additionalImprovements).length = 0 then
        ["Continue practicing to refine your delivery",
         "Consider recording yourself to identify areas for improvement"]
      else
        (analyzeResponseContent input.question input.transcription input.metrics).improvements ++
          (generateDetailedFeedback input.metrics).additionalImprovements).take 4 := rfl
  refine ⟨⟨by rw [hseq]; exact hs.1, by rw [hseq]; exact hs.2⟩,
    ⟨by rw [hieq]; exact hi.1, by rw [hieq]; exact hi.2⟩, ?_⟩
  intro hnil
  rw [hseq, hnil]
  simp

/-- An `AnalysisInput` built from the C5 transcription, used by the witness
of the amended claim. -/
def c5Input : AnalysisInput :=
  { question := "q"
    transcription := c5Transcription
    metrics := analyzeSpeechMetrics c5Transcription
    clarityScore := .fin 80
    structureScore := .fin 80
    paceScore := .fin 80 }

/-- Witness for the amended C5 at a concrete input. -/
theorem c5_amended_list_bounds_and_padding_witness :
    (1 ≤ (generateAIFeedback c5Input "s" "f" "n").strengths.length ∧
      (generateAIFeedback c5Input "s" "f" "n").strengths.length ≤ 4) ∧
    (1 ≤ (generateAIFeedback c5Input "s" "f" "n").improvements.length ∧
      (generateAIFeedback c5Input "s" "f" "n").improvements.length ≤ 4) ∧
    ((analyzeResponseContent c5Input.question c5Input.transcription c5Input.metrics).strengths ++
        (generateDetailedFeedback c5Input.metrics).additionalStrengths = [] →
      (generateAIFeedback c5Input "s" "f" "n").strengths =
        ["Completed the interview question",
         "Provided a response within a reasonable timeframe"]) :=
  c5_amended_list_bounds_and_padding c5Input "s" "f" "n"

/-- **C7.** The content score equals the clamp to [0,100] of: base 70,
plus 10 for appropriate length (50-300 words), plus 10 if an examples
pattern is present, plus 10 if a structure-marker pattern is present,
plus 5 if confident language is present without hedging language, plus 5
if a quantified-results pattern is present, minus 10 if the vocabulary
richness is below 0.4. -/
theorem c7_content_score_formula (question : String)
    (transcription : TranscriptionResult) (metrics : SpeechMetrics) :
    (analyzeResponseContent question transcription metrics).contentScore =
      min 100 (max 0 ((70 : ℚ) +
        (if 50 ≤ metrics.wordCount ∧ metrics.wordCount ≤ 300 then 10 else 0) +
        (if testAny EXAMPLE_PATTERNS (transcription.text.toList.map Char.toLower) then 10 else 0) +
        (if testAny STRUCTURE_PATTERNS (transcription.text.toList.map Char.toLower) then 10 else 0) +
        (if testAny CONFIDENCE_PATTERNS (transcription.text.toList.map Char.toLower) &&
            !testAny HEDGING_PATTERNS (transcription.text.toList.map Char.toLower) then 5 else 0) +
        (if testNumberUnit (transcription.text.toList.map Char.toLower) then 5 else 0) -
        (if metrics.vocabularyRichness.ltQ (4/10) then 10 else 0))) := by
  simp only [analyzeResponseContent]
  split_ifs <;> norm_num

/-- Placeholder word record, used only as the (never reached) default value
of `List.getD` in index-based statements. -/
def dummyWord : WordTiming :=
  { word := "", start := 0, endTime := 0, confidence := 0 }

/-- The consecutive-pair gaps of the pause loop, expressed over indices:
entry `i` of the gap list is `start[i+1] - end[i]`. -/
theorem pauseGaps_eq_range :
    ∀ ws : List WordTiming,
      (ws.zip ws.tail).map (fun p => p.2.start - p.1.endTime) =
        (List.range (ws.length - 1)).map
          (fun i => (ws.getD (i + 1) dummyWord).start - (ws.getD i dummyWord).endTime)
  | [] => by simp
  | [a] => by simp
  | a :: b :: t => by
    have ih := pauseGaps_eq_range (b :: t)
    simp only [List.tail_cons] at ih ⊢
    rw [List.zip_cons_cons, List.map_cons]
    rw [show (a :: b :: t).length - 1 = t.length + 1 by simp]
    rw [List.range_succ_eq_map, List.map_cons, List.map_map]
    refine congrArg₂ List.cons (by simp) ?_
    rw [ih, show (b :: t).length - 1 = t.length by simp]
    refine List.map_congr_left fun i _ => ?_
    simp [List.getD_cons_succ, Function.comp]

/-- **C8.** The extractor records as pauses exactly the gaps
`start[i] - end[i-1]` over consecutive word pairs that exceed 0.1 s, and
the average pause duration is their arithmetic mean, or 0 when no pause
was recorded. -/
theorem c8_pause_extraction (tr : TranscriptionResult) :
    (analyzeSpeechMetrics tr).pauseDurations =
      ((List.range (tr.words.length - 1)).map
        (fun i => (tr.words.getD (i + 1) dummyWord).start -
          (tr.words.getD i dummyWord).endTime)).filter (fun pause => 1/10 < pause) ∧
    (analyzeSpeechMetrics tr).averagePauseDuration =
      (if 0 < (analyzeSpeechMetrics tr).pauseDurations.length then
        (analyzeSpeechMetrics tr).pauseDurations.sum /
          ((analyzeSpeechMetrics tr).pauseDurations.length : ℚ)
      else 0) := by
  constructor
  · show pauseDurationsOf tr.words = _
    unfold pauseDurationsOf
    rw [pauseGaps_eq_range tr.words]
  · rfl

/-- If the left-to-right occurrence count of a boundary pattern is
positive, the boundary-pattern test succeeds on the same text. -/
theorem testAux_of_countOccAux_pos (pat : List Char) :
    ∀ n cs b, cs.length ≤ n → 0 < countOccAux pat cs b → testAux pat cs b = true := by
  intro n
  induction n with
  | zero =>
    intro cs b hl h
    cases cs with
    | nil => rw [countOccAux] at h; exact absurd h (by simp)
    | cons c cs => simp at hl
  | succ n ih =>
    intro cs b hl h
    cases cs with
    | nil => rw [countOccAux] at h; exact absurd h (by simp)
    | cons c cs =>
      rw [countOccAux] at h
      rw [testAux]
      by_cases hb : (b && matchHere pat (c :: cs)) = true
      · rw [hb, Bool.true_or]
      · rw [if_neg hb] at h
        rw [Bool.or_eq_true]
        exact Or.inr (ih cs (!isWordChar c) (by simpa using Nat.le_of_succ_le_succ hl) h)

/-- **C9.** The extractor invariant: `fillerWordCount` equals the length of
the `fillerWords` list, and every entry of `fillerWords` is an entry of
the fixed filler vocabulary whose whole-word pattern matches the
lowercased transcript text (matching the lowercase patterns against the
lowercased text realises the case-insensitive `gi` regex of the source). -/
theorem c9_filler_invariant (tr : TranscriptionResult) :
    (analyzeSpeechMetrics tr).fillerWordCount =
      (analyzeSpeechMetrics tr).fillerWords.length ∧
    ∀ w ∈ (analyzeSpeechMetrics tr).fillerWords,
      w ∈ FILLER_WORDS ∧ testPat w (tr.text.toList.map Char.toLower) = true := by
  constructor
  · rfl
  · intro w hw
    have hw2 : w ∈ fillerMatches (tr.text.toList.map Char.toLower) := hw
    unfold fillerMatches at hw2
    rw [List.mem_flatten] at hw2
    obtain ⟨l, hl, hwl⟩ := hw2
    rw [List.mem_map] at hl
    obtain ⟨f, hf, rfl⟩ := hl
    obtain ⟨hn, heq⟩ := List.mem_replicate.mp hwl
    subst heq
    refine ⟨hf, ?_⟩
    exact testAux_of_countOccAux_pos _ _ _ _ le_rfl (Nat.pos_of_ne_zero hn)

/-- A transcript containing the filler word "um", for the C9 witness. -/
def c9Transcription : TranscriptionResult :=
  { text := "Um, yes", words := [], duration := 5 }

/-- Witness for C9 at a concrete input: "um" is returned among the filler
words, belongs to the vocabulary, and matches the lowercased text. -/
theorem c9_filler_invariant_witness :
    ((analyzeSpeechMetrics c9Transcription).fillerWordCount =
      (analyzeSpeechMetrics c9Transcription).fillerWords.length) ∧
    ("um" ∈ FILLER_WORDS ∧
      testPat "um" (c9Transcription.text.toList.map Char.toLower) = true) :=
  ⟨(c9_filler_invariant c9Transcription).1,
    (c9_filler_invariant c9Transcription).2 "um" (by with_unfolding_all decide)⟩

/-- Closed form of the filler penalty of `calculateClarityScore`: when the
word count is zero the ratio is NaN (no penalty) for zero fillers and
+Infinity (penalty capped at 30) otherwise; for a positive word count it
is the source formula on the exact ratio. -/
def clarityFillerPenaltyQ (f w : ℕ) : ℚ :=
  if w = 0 then (if f = 0 then 0 else 30)
  else if 33/1000 < (f : ℚ) / w then min 30 (((f : ℚ) / w - 33/1000) * 500) else 0

/-- Closed form of the confidence penalty of `calculateClarityScore`: with
no words the average confidence is NaN and no penalty applies. -/
def clarityConfidencePenaltyQ (ws : List WordTiming) : ℚ :=
  if ws.length = 0 then 0
  else if (ws.map (fun w => w.confidence)).sum / (ws.length : ℚ) < 9/10 then
    (9/10 - (ws.map (fun w => w.confidence)).sum / (ws.length : ℚ)) * 100
  else 0

/-- Closed form of the long-pause penalty of `calculateClarityScore`. -/
def clarityPausePenaltyQ (pauses : List ℚ) : ℚ :=
  min 15 (((pauses.filter (fun p => 2 < p)).length : ℚ) * 5)

/-- The filler-ratio step of the clarity score in closed form. -/
theorem fillerStep_eq (s : ℚ) (f w : ℕ) :
    (if (jsDiv (f : ℚ) (w : ℚ)).gtQ (33/1000) then
      (JsNum.fin s).sub (jsMin 30 (((jsDiv (f : ℚ) (w : ℚ)).sub (.fin (33/1000))).mulQ 500))
    else JsNum.fin s) = .fin (s - clarityFillerPenaltyQ f w) := by
  rcases eq_or_ne w 0 with hw | hw
  · subst hw
    rcases eq_or_ne f 0 with hf | hf
    · subst hf
      simp [jsDiv, JsNum.gtQ, clarityFillerPenaltyQ]
    · have hf2 : (0 : ℚ) < f := by exact_mod_cast Nat.pos_of_ne_zero hf
      have hf3 : (f : ℚ) ≠ 0 := ne_of_gt hf2
      simp [jsDiv, JsNum.gtQ, JsNum.sub, JsNum.mulQ, jsMin, clarityFillerPenaltyQ, hf, hf2, hf3]
  · have hw2 : (w : ℚ) ≠ 0 := Nat.cast_ne_zero.mpr hw
    by_cases hc : 33/1000 < (f : ℚ) / w
    · simp [jsDiv, JsNum.gtQ, JsNum.sub, JsNum.mulQ, jsMin, clarityFillerPenaltyQ, hw, hw2, hc]
    · simp [jsDiv, JsNum.gtQ, JsNum.sub, JsNum.mulQ, jsMin, clarityFillerPenaltyQ, hw, hw2, hc]

/-- The confidence step of the clarity score in closed form. -/
theorem confStep_eq (s : ℚ) (ws : List WordTiming) :
    (if (jsDiv ((ws.map (fun w => w.confidence)).sum) (ws.length : ℚ)).ltQ (9/10) then
      (JsNum.fin s).sub (((JsNum.fin (9/10)).sub
        (jsDiv ((ws.map (fun w => w.confidence)).sum) (ws.length : ℚ))).mulQ 100)
    else JsNum.fin s) = .fin (s - clarityConfidencePenaltyQ ws) := by
  rcases eq_or_ne ws.length 0 with hl | hl
  · have hnil : ws = [] := List.length_eq_zero.mp hl
    subst hnil
    simp [jsDiv, JsNum.ltQ, clarityConfidencePenaltyQ]
  · have hl2 : (ws.length : ℚ) ≠ 0 := Nat.cast_ne_zero.mpr hl
    by_cases havg : (ws.map (fun w => w.confidence)).sum / (ws.length : ℚ) < 9/10
    · simp [jsDiv, JsNum.ltQ, JsNum.sub, JsNum.mulQ, clarityConfidencePenaltyQ, hl, hl2, havg]
    · simp [jsDiv, JsNum.ltQ, JsNum.sub, JsNum.mulQ, clarityConfidencePenaltyQ, hl, hl2, havg]

/-- `calculateClarityScore` in closed form: a finite integer, the clamp
from below at 0 of the rounded baseline 100 minus the three penalties. -/
theorem calculateClarityScore_closed_form (m : SpeechMetrics) (tr : TranscriptionResult) :
    calculateClarityScore m tr =
      .fin ((max 0 ⌊100 - clarityFillerPenaltyQ m.fillerWordCount m.wordCount -
        clarityConfidencePenaltyQ tr.words - clarityPausePenaltyQ m.pauseDurations + 1/2⌋ : ℤ) : ℚ) := by
  simp only [calculateClarityScore]
  rw [fillerStep_eq, confStep_eq]
  simp only [jsMin, JsNum.sub, jsRound, jsMax]
  rw [show (100 : ℚ) - clarityFillerPenaltyQ m.fillerWordCount m.wordCount -
    clarityConfidencePenaltyQ tr.words - clarityPausePenaltyQ m.pauseDurations =
    100 - clarityFillerPenaltyQ m.fillerWordCount m.wordCount -
    clarityConfidencePenaltyQ tr.words -
    min 15 (((m.pauseDurations.filter (fun p => 2 < p)).length : ℚ) * 5) from rfl]
  rw [Int.cast_max]
  norm_num

/-- The filler penalty is monotone in the filler count for a fixed word
count. -/
theorem clarityFillerPenaltyQ_mono (w : ℕ) {f1 f2 : ℕ} (h : f1 ≤ f2) :
    clarityFillerPenaltyQ f1 w ≤ clarityFillerPenaltyQ f2 w := by
  unfold clarityFillerPenaltyQ
  rcases eq_or_ne w 0 with hw | hw
  · subst hw
    rcases eq_or_ne f1 0 with h1 | h1
    · rcases eq_or_ne f2 0 with h2 | h2 <;> simp [h1, h2]
    · have h2 : f2 ≠ 0 := by omega
      simp [h1, h2]
  · have hw2 : (0 : ℚ) < w := by exact_mod_cast Nat.pos_of_ne_zero hw
    simp only [if_neg hw]
    have hr : (f1 : ℚ) / w ≤ (f2 : ℚ) / w := by
      apply div_le_div_of_nonneg_right ?_ hw2.le
      exact_mod_cast h
    split_ifs with hc1 hc2 hc2
    · refine min_le_min le_rfl ?_
      have hsub : (f1 : ℚ) / w - 33/1000 ≤ (f2 : ℚ) / w - 33/1000 := by linarith
      exact mul_le_mul_of_nonneg_right hsub (by norm_num)
    · exact absurd (lt_of_lt_of_le hc1 hr) hc2
    · refine le_min (by norm_num) ?_
      have : (0 : ℚ) ≤ (f2 : ℚ) / w - 33/1000 := by linarith
      positivity
    · exact le_rfl

/-- **C6.** The clarity score is monotonically non-increasing in the filler
word count: two metric records agreeing on word count and pause durations,
scored against the same transcription (hence the same per-word
confidences), with the second having at least as many filler words, give
clarity scores (finite integers) in the opposite order. -/
theorem c6_clarity_monotone_in_fillers (m1 m2 : SpeechMetrics) (tr : TranscriptionResult)
    (hw : m1.wordCount = m2.wordCount) (hp : m1.pauseDurations = m2.pauseDurations)
    (hf : m1.fillerWordCount ≤ m2.fillerWordCount) :
    ∃ a b : ℤ, calculateClarityScore m1 tr = .fin (a : ℚ) ∧
      calculateClarityScore m2 tr = .fin (b : ℚ) ∧ b ≤ a := by
  refine ⟨_, _, calculateClarityScore_closed_form m1 tr,
    calculateClarityScore_closed_form m2 tr, ?_⟩
  rw [hw, hp]
  have hmono := clarityFillerPenaltyQ_mono m2.wordCount hf
  refine max_le_max le_rfl ?_
  apply Int.floor_le_floor
  linarith

/-- Metrics with two filler words, for the C6 witness. -/
def c6Metrics1 : SpeechMetrics :=
  { wordsPerMinute := .fin 150
    fillerWords := ["um", "uh"]
    fillerWordCount := 2
    pauseDurations := []
    averagePauseDuration := 0
    sentenceCount := 3
    wordCount := 30
    uniqueWordCount := 20
    vocabularyRichness := .fin (2/3) }

/-- The same metrics with nine filler words, for the C6 witness. -/
def c6Metrics2 : SpeechMetrics :=
  { c6Metrics1 with
    fillerWords := ["um", "uh", "um", "uh", "um", "uh", "um", "uh", "um"]
    fillerWordCount := 9 }

/-- A transcription shared by the two C6 metric records. -/
def c6Transcription : TranscriptionResult :=
  { text := "t", words := [], duration := 10 }

/-- Witness for C6 at concrete inputs. -/
theorem c6_clarity_monotone_in_fillers_witness :
    ∃ a b : ℤ, calculateClarityScore c6Metrics1 c6Transcription = .fin (a : ℚ) ∧
      calculateClarityScore c6Metrics2 c6Transcription = .fin (b : ℚ) ∧ b ≤ a :=
  c6_clarity_monotone_in_fillers c6Metrics1 c6Metrics2 c6Transcription rfl rfl (by decide)

end Interview
